import Mathlib

/-!
Verification development for the `node-vcam` repository sources:
`src/samples/demo.ts` (a demo driving an external `Camera` via a 60 FPS
interval timer that fills an RGBA pixel buffer) and the two maintenance
scripts (`format` and `check`) that shell out via `execSync`.

The demo's `Uint8Array` pixel buffer is modelled as a fixed-length byte
store; writes are coerced modulo 256 and ignored out of range, matching
JavaScript typed-array semantics.  The nested fill loop is embedded as
structural recursion applying the loop body in source order.
-/

namespace NodeVcam

/-- Byte length of the demo's buffer: `new Uint8Array(1280 * 720 * 4)`. -/
def BUF_LEN : Nat := 1280 * 720 * 4

/-- A `Uint8Array`: a fixed length and byte contents by index. -/
structure Buffer where
  len : Nat
  data : Nat → Nat

/-- The freshly allocated buffer: zero-filled, length `1280 * 720 * 4`. -/
def initBuffer : Buffer := ⟨BUF_LEN, fun _ => 0⟩

/-- `buf[idx] = val` on a `Uint8Array`: stores `val % 256` when `idx` is in
range, otherwise is a no-op; the length never changes. -/
def writeByte (b : Buffer) (idx val : Nat) : Buffer :=
  if idx < b.len then ⟨b.len, fun n => if n = idx then val % 256 else b.data n⟩ else b

/-- The flat index `4 * (i * 1280 + j) + k` the loop body writes to
(`off = i * 1280 + j`, channel `k`). -/
def writeIndex (i j k : Nat) : Nat := 4 * (i * 1280 + j) + k

/-- The byte value the loop body stores at channel `k` of a pixel in row `i`
when `timer = t`: `t % 256`, `0`, `i % 256`, `255` for `k = 0, 1, 2, 3`. -/
def pixelVal (t i k : Nat) : Nat :=
  if k = 0 then t % 256
  else if k = 1 then 0
  else if k = 2 then i % 256
  else 255

/-- One iteration of the inner loop body: the four byte stores at
`4 * off`, `4 * off + 1`, `4 * off + 2`, `4 * off + 3`, in source order. -/
def writePixel (b : Buffer) (t i j : Nat) : Buffer :=
  let off := i * 1280 + j
  let b0 := writeByte b (4 * off) (t % 256)
  let b1 := writeByte b0 (4 * off + 1) 0
  let b2 := writeByte b1 (4 * off + 2) (i % 256)
  writeByte b2 (4 * off + 3) 255

/-- The inner loop `for (let j = 0; j < J; j++)`: state after the first `J`
iterations of row `i`. -/
def innerLoop (b : Buffer) (t i : Nat) : Nat → Buffer
  | 0 => b
  | j + 1 => writePixel (innerLoop b t i j) t i j

/-- The outer loop `for (let i = 0; i < I; i++)`: state after the first `I`
rows, each running the inner loop to `j = 1280`. -/
def outerLoop (b : Buffer) (t : Nat) : Nat → Buffer
  | 0 => b
  | i + 1 => innerLoop (outerLoop b t i) t i 1280

/-- The whole buffer-fill pass of one timer-callback invocation with
`timer = t`: 720 rows of 1280 columns. -/
def tickFill (b : Buffer) (t : Nat) : Buffer := outerLoop b t 720

lemma tickFill_eq (b : Buffer) (t : Nat) : tickFill b t = outerLoop b t 720 := rfl

lemma innerLoop_succ (b : Buffer) (t i J : Nat) :
    innerLoop b t i (J + 1) = writePixel (innerLoop b t i J) t i J := rfl

lemma outerLoop_succ (b : Buffer) (t I : Nat) :
    outerLoop b t (I + 1) = innerLoop (outerLoop b t I) t I 1280 := rfl

lemma writeByte_len (b : Buffer) (idx val : Nat) : (writeByte b idx val).len = b.len := by
  unfold writeByte; split <;> rfl

lemma writeByte_data_eq (b : Buffer) (idx val : Nat) (h : idx < b.len) :
    (writeByte b idx val).data idx = val % 256 := by
  unfold writeByte
  simp [h]

lemma writeByte_data_ne (b : Buffer) (idx val n : Nat) (h : n ≠ idx) :
    (writeByte b idx val).data n = b.data n := by
  unfold writeByte
  split
  · simp [h]
  · rfl

lemma writePixel_len (b : Buffer) (t i j : Nat) : (writePixel b t i j).len = b.len := by
  unfold writePixel
  simp [writeByte_len]

lemma innerLoop_len (b : Buffer) (t i : Nat) : ∀ J, (innerLoop b t i J).len = b.len := by
  intro J
  induction J with
  | zero => rfl
  | succ j ih => rw [innerLoop_succ, writePixel_len, ih]

lemma outerLoop_len (b : Buffer) (t : Nat) : ∀ I, (outerLoop b t I).len = b.len := by
  intro I
  induction I with
  | zero => rfl
  | succ i ih => rw [outerLoop_succ, innerLoop_len, ih]

lemma tickFill_len (b : Buffer) (t : Nat) : (tickFill b t).len = b.len :=
  outerLoop_len b t 720

lemma writePixel_data_at (b : Buffer) (t i j k : Nat) (hlen : b.len = BUF_LEN)
    (hi : i < 720) (hj : j < 1280) (hk : k < 4) :
    (writePixel b t i j).data (writeIndex i j k) = pixelVal t i k := by
  have hb : BUF_LEN = 3686400 := by norm_num [BUF_LEN]
  unfold writePixel writeIndex pixelVal
  interval_cases k
  · simp only [Nat.add_zero]
    rw [writeByte_data_ne _ _ _ _ (by omega), writeByte_data_ne _ _ _ _ (by omega),
      writeByte_data_ne _ _ _ _ (by omega),
      writeByte_data_eq _ _ _ (by simp only [writeByte_len, hlen, hb]; omega)]
    norm_num
  · rw [writeByte_data_ne _ _ _ _ (by omega), writeByte_data_ne _ _ _ _ (by omega),
      writeByte_data_eq _ _ _ (by simp only [writeByte_len, hlen, hb]; omega)]
    norm_num
  · rw [writeByte_data_ne _ _ _ _ (by omega),
      writeByte_data_eq _ _ _ (by simp only [writeByte_len, hlen, hb]; omega)]
    norm_num
  · rw [writeByte_data_eq _ _ _ (by simp only [writeByte_len, hlen, hb]; omega)]
    norm_num

lemma writePixel_data_other (b : Buffer) (t i j n : Nat)
    (h : ∀ k, k < 4 → n ≠ 4 * (i * 1280 + j) + k) :
    (writePixel b t i j).data n = b.data n := by
  unfold writePixel
  rw [writeByte_data_ne _ _ _ _ (h 3 (by omega)), writeByte_data_ne _ _ _ _ (h 2 (by omega)),
    writeByte_data_ne _ _ _ _ (h 1 (by omega))]
  have h0 := h 0 (by omega)
  rw [writeByte_data_ne _ _ _ _ (by omega)]

lemma innerLoop_data_at (b : Buffer) (t i j k : Nat) (hlen : b.len = BUF_LEN)
    (hi : i < 720) (hj1280 : j < 1280) (hk : k < 4) :
    ∀ J, j < J → J ≤ 1280 → (innerLoop b t i J).data (writeIndex i j k) = pixelVal t i k := by
  intro J
  induction J with
  | zero => omega
  | succ J ih =>
    intro hjJ hJ
    rw [innerLoop_succ]
    by_cases hcase : j = J
    · subst hcase
      exact writePixel_data_at _ t i j k (by rw [innerLoop_len, hlen]) hi hj1280 hk
    · rw [writePixel_data_other]
      · exact ih (by omega) (by omega)
      · intro k' hk'
        unfold writeIndex
        omega

lemma innerLoop_data_other (b : Buffer) (t i n : Nat) :
    ∀ J, (∀ j' k', j' < J → k' < 4 → n ≠ 4 * (i * 1280 + j') + k') →
    (innerLoop b t i J).data n = b.data n := by
  intro J
  induction J with
  | zero => intro _; rfl
  | succ J ih =>
    intro h
    rw [innerLoop_succ, writePixel_data_other]
    · exact ih fun j' k' hj' hk' => h j' k' (by omega) hk'
    · intro k' hk'
      exact h J k' (by omega) hk'

lemma outerLoop_data_at (b : Buffer) (t i j k : Nat) (hlen : b.len = BUF_LEN)
    (hj : j < 1280) (hk : k < 4) :
    ∀ I, i < I → I ≤ 720 → (outerLoop b t I).data (writeIndex i j k) = pixelVal t i k := by
  intro I
  induction I with
  | zero => omega
  | succ I ih =>
    intro hiI hI
    rw [outerLoop_succ]
    by_cases hcase : i = I
    · subst hcase
      exact innerLoop_data_at _ t i j k (by rw [outerLoop_len, hlen]) (by omega) hj hk 1280 hj le_rfl
    · have hskip : (innerLoop (outerLoop b t I) t I 1280).data (writeIndex i j k)
          = (outerLoop b t I).data (writeIndex i j k) :=
        innerLoop_data_other _ t I _ 1280 (fun j' k' hj' hk' => by unfold writeIndex; omega)
      rw [hskip]
      exact ih (by omega) (by omega)

/-- Core loop correctness: after one fill pass with `timer = t` over a
buffer of the demo's length, the byte at channel `k` of pixel `(i, j)` is
exactly the value the loop body stores there. -/
lemma tickFill_data_at (b : Buffer) (t i j k : Nat) (hlen : b.len = BUF_LEN)
    (hi : i < 720) (hj : j < 1280) (hk : k < 4) :
    (tickFill b t).data (writeIndex i j k) = pixelVal t i k := by
  rw [tickFill_eq]
  exact outerLoop_data_at b t i j k hlen hj hk 720 hi le_rfl

lemma tickFill_data_out (b : Buffer) (t n : Nat) (hn : BUF_LEN ≤ n) :
    (tickFill b t).data n = b.data n := by
  have hb : BUF_LEN = 3686400 := by norm_num [BUF_LEN]
  rw [tickFill_eq]
  have key : ∀ I, I ≤ 720 → (outerLoop b t I).data n = b.data n := by
    intro I
    induction I with
    | zero => intro _; rfl
    | succ I ih =>
      intro hI
      rw [outerLoop_succ]
      have hskip : (innerLoop (outerLoop b t I) t I 1280).data n
          = (outerLoop b t I).data n :=
        innerLoop_data_other _ t I _ 1280 (fun j' k' hj' hk' => by omega)
      rw [hskip]
      exact ih (by omega)
  exact key 720 le_rfl

attribute [irreducible] writePixel innerLoop outerLoop tickFill

/-- `const FPS = 60.0;` as an exact rational. -/
def FPS : ℚ := 60

/-- The delay argument of `setInterval`: `1000.0 / FPS` milliseconds. -/
def intervalMs : ℚ := 1000 / FPS

/-- The inferred shape of the external `Camera` object:
`new Camera(width, height)`. -/
structure CameraObj where
  width : Nat
  height : Nat
deriving DecidableEq

/-- `const camera = new Camera(1280, 720);` -/
def camera : CameraObj := ⟨1280, 720⟩

/-- The demo's mutable environment: the `camera` and `FPS` constants, the
`pixels` buffer (contents plus the identity of the allocated object and how
many allocations have happened), the `timer` counter, and whether the
interval registered by `setInterval` is still scheduled. -/
structure DemoState where
  camera : CameraObj
  fps : ℚ
  pixels : Buffer
  bufId : Nat
  allocCount : Nat
  timer : Nat
  scheduled : Bool

/-- The demo right after its top-level statements ran: camera constructed,
one buffer allocated (object id 0), `timer = 0`, interval scheduled. -/
def demoInit : DemoState :=
  { camera := camera, fps := FPS, pixels := initBuffer, bufId := 0,
    allocCount := 1, timer := 0, scheduled := true }

/-- One invocation of the `setInterval` callback: fill the buffer in place,
pass it to `camera.send`, increment `timer`.  Returns the new state together
with the object id and contents of the buffer handed to `send`. -/
def demoTick (s : DemoState) : DemoState × Nat × Buffer :=
  let buf := tickFill s.pixels s.timer
  ({ s with pixels := buf, timer := s.timer + 1 }, s.bufId, buf)

/-- The demo state after `n` callback invocations. -/
def demoAfter : Nat → DemoState
  | 0 => demoInit
  | n + 1 => (demoTick (demoAfter n)).1

/-- The buffer contents passed to `camera.send` on the `n`-th tick. -/
def frameSent (n : Nat) : Buffer := (demoTick (demoAfter n)).2.2

/-- The object id of the buffer passed to `camera.send` on the `n`-th tick. -/
def sentRef (n : Nat) : Nat := (demoTick (demoAfter n)).2.1

/-- The byte at flat index `m` of the frame sent on tick `n`, as a function
of `n` and `m` alone (row of `m` is `m / 5120`, channel is `m % 4`). -/
def specByte (n m : Nat) : Nat := pixelVal n (m / 5120) (m % 4)

/-- A Camera API interaction performed by the demo. -/
inductive CamEvent where
  | construct (width height : Nat)
  | start
  | send (frame : Buffer)

def isConstruct : CamEvent → Bool
  | .construct _ _ => true
  | _ => false

def isStart : CamEvent → Bool
  | .start => true
  | _ => false

def isSend : CamEvent → Bool
  | .send _ => true
  | _ => false

/-- The sequence of Camera interactions the demo has performed after `n`
ticks: `new Camera(1280, 720)`, then `camera.start()`, then one
`camera.send` per tick. -/
def demoEvents (n : Nat) : List CamEvent :=
  CamEvent.construct 1280 720 :: CamEvent.start ::
    (List.range n).map (fun t => CamEvent.send (frameSent t))

/-- A top-level statement of `demo.ts` with an observable effect. -/
inductive TopAction where
  | newCamera (width height : Nat)
  | allocPixels (len : Nat)
  | initTimer
  | startCamera
  | setIntervalCall (periodMs : ℚ)
  | clearIntervalCall
deriving DecidableEq

/-- The top-level statements of `demo.ts`, in source order.  There is no
`clearInterval` anywhere in the file. -/
def demoProgram : List TopAction :=
  [TopAction.newCamera 1280 720, TopAction.allocPixels (1280 * 720 * 4),
   TopAction.initTimer, TopAction.startCamera, TopAction.setIntervalCall intervalMs]

def isClearIntervalCall : TopAction → Bool
  | .clearIntervalCall => true
  | _ => false

def isSetIntervalCall : TopAction → Bool
  | .setIntervalCall _ => true
  | _ => false

/-- A registered timer: repeating or one-shot, with its nominal period. -/
structure TimerSpec where
  repeating : Bool
  periodMs : ℚ

/-- The timer the demo registers: `setInterval(callback, 1000.0 / FPS)`. -/
def demoTimer : TimerSpec := { repeating := true, periodMs := intervalMs }

/-- `src/scripts/format.ts`, first command string. -/
def prettierWriteCmd : String := "prettier --write \"**/*.\x7bjs,ts,json\x7d\""

/-- `src/scripts/format.ts`, second command string. -/
def cargoFmtCmd : String := "cargo fmt"

/-- The command strings the format script passes to `execSync`, in order. -/
def formatScript : List String := [prettierWriteCmd, cargoFmtCmd]

/-- `src/scripts/check.ts`, first command string. -/
def prettierCheckCmd : String := "prettier --check \"**/*.\x7bjs,ts,json\x7d\""

/-- `src/scripts/check.ts`, second command string. -/
def eslintCmd : String := "eslint . --ext \".ts,.js\""

/-- The command strings the check script passes to `execSync`, in order. -/
def checkScript : List String := [prettierCheckCmd, eslintCmd]

/-- Sequential `execSync` semantics over a script's command list, given the
exit status each command would produce: commands run in order; a non-zero
exit throws, so the script aborts there.  Returns the commands actually
executed and, when the script aborted, the command that failed. -/
def runScript (exitCode : String → Nat) : List String → List String × Option String
  | [] => ([], none)
  | c :: rest =>
    if exitCode c = 0 then
      let r := runScript exitCode rest
      (c :: r.1, r.2)
    else ([c], some c)

/-- `chStarts pat cs` is true when `pat` is an initial run of `cs`. -/
def chStarts : List Char → List Char → Bool
  | [], _ => true
  | _ :: _, [] => false
  | p :: ps, c :: cs => p == c && chStarts ps cs

/-- `chHas pat cs` is true when `pat` occurs contiguously inside `cs`. -/
def chHas (pat : List Char) : List Char → Bool
  | [] => chStarts pat []
  | c :: cs => chStarts pat (c :: cs) || chHas pat cs

/-- Whether `pat` occurs as a contiguous substring of `s`. -/
def strHas (s pat : String) : Bool := chHas pat.toList s.toList

lemma demoAfter_succ (n : Nat) : demoAfter (n + 1) = (demoTick (demoAfter n)).1 := rfl

lemma demoTick_fields (s : DemoState) :
    (demoTick s).1.camera = s.camera ∧ (demoTick s).1.fps = s.fps ∧
    (demoTick s).1.bufId = s.bufId ∧ (demoTick s).1.allocCount = s.allocCount ∧
    (demoTick s).1.scheduled = s.scheduled ∧ (demoTick s).1.timer = s.timer + 1 ∧
    (demoTick s).1.pixels = tickFill s.pixels s.timer := by
  cases s
  exact ⟨rfl, rfl, rfl, rfl, rfl, rfl, rfl⟩

lemma demoAfter_fields (n : Nat) :
    (demoAfter n).camera = camera ∧ (demoAfter n).fps = FPS ∧
    (demoAfter n).bufId = 0 ∧ (demoAfter n).allocCount = 1 ∧
    (demoAfter n).scheduled = true ∧ (demoAfter n).timer = n ∧
    (demoAfter n).pixels.len = BUF_LEN := by
  induction n with
  | zero => exact ⟨rfl, rfl, rfl, rfl, rfl, rfl, rfl⟩
  | succ n ih =>
    obtain ⟨h1, h2, h3, h4, h5, h6, h7⟩ := ih
    obtain ⟨g1, g2, g3, g4, g5, g6, g7⟩ := demoTick_fields (demoAfter n)
    rw [demoAfter_succ]
    refine ⟨g1.trans h1, g2.trans h2, g3.trans h3, g4.trans h4, g5.trans h5, ?_, ?_⟩
    · rw [g6, h6]
    · rw [g7, tickFill_len]
      exact h7

lemma frameSent_eq (n : Nat) : frameSent n = tickFill (demoAfter n).pixels n := by
  have h : frameSent n = tickFill (demoAfter n).pixels (demoAfter n).timer := rfl
  rw [h, (demoAfter_fields n).2.2.2.2.2.1]

lemma frameSent_len (n : Nat) : (frameSent n).len = BUF_LEN := by
  rw [frameSent_eq, tickFill_len]
  exact (demoAfter_fields n).2.2.2.2.2.2

lemma demoAfter_succ_pixels (n : Nat) : (demoAfter (n + 1)).pixels = frameSent n := rfl

lemma frameSent_data_at (n i j k : Nat) (hi : i < 720) (hj : j < 1280) (hk : k < 4) :
    (frameSent n).data (writeIndex i j k) = pixelVal n i k := by
  rw [frameSent_eq]
  exact tickFill_data_at _ n i j k (demoAfter_fields n).2.2.2.2.2.2 hi hj hk

lemma countP_map_false {α β : Type} (p : β → Bool) (f : α → β) (l : List α)
    (h : ∀ a, p (f a) = false) : (l.map f).countP p = 0 := by
  induction l with
  | nil => rfl
  | cons a l ih => simp [List.countP_cons, h, ih]

lemma countP_map_true {α β : Type} (p : β → Bool) (f : α → β) (l : List α)
    (h : ∀ a, p (f a) = true) : (l.map f).countP p = l.length := by
  induction l with
  | nil => rfl
  | cons a l ih => simp [List.countP_cons, h, ih]

/-- C1: on every tick of the demo's timer callback, the pixel buffer after
the callback has length exactly `1280 * 720 * 4 = 3686400` bytes and the
alpha byte `4 * (i * 1280 + j) + 3` of every pixel equals `255`. -/
theorem demo_pixels_len_alpha (n i j : Nat) (hi : i < 720) (hj : j < 1280) :
    (demoAfter (n + 1)).pixels.len = 1280 * 720 * 4 ∧
    1280 * 720 * 4 = 3686400 ∧
    (demoAfter (n + 1)).pixels.data (4 * (i * 1280 + j) + 3) = 255 := by
  refine ⟨?_, by norm_num, ?_⟩
  · rw [demoAfter_succ_pixels, frameSent_len]
    norm_num [BUF_LEN]
  · rw [demoAfter_succ_pixels]
    have e : writeIndex i j 3 = 4 * (i * 1280 + j) + 3 := rfl
    rw [← e, frameSent_data_at n i j 3 hi hj (by omega)]
    rfl

theorem demo_pixels_len_alpha_w :
    (demoAfter 1).pixels.len = 1280 * 720 * 4 ∧
    1280 * 720 * 4 = 3686400 ∧
    (demoAfter 1).pixels.data (4 * (0 * 1280 + 0) + 3) = 255 :=
  demo_pixels_len_alpha 0 0 0 (by norm_num) (by norm_num)

/-- C2: on the `n`-th callback invocation (`timer = n` at entry) the four
bytes at offset `4 * (i * 1280 + j)` of the sent frame are
`n % 256, 0, i % 256, 255` in that order, `timer` is incremented by exactly
one, and every byte of the sent frame is a function of `n` alone. -/
theorem demo_tick_deterministic_writes (n : Nat) :
    (demoAfter n).timer = n ∧
    (demoAfter (n + 1)).timer = n + 1 ∧
    (∀ i j, i < 720 → j < 1280 →
      (frameSent n).data (4 * (i * 1280 + j)) = n % 256 ∧
      (frameSent n).data (4 * (i * 1280 + j) + 1) = 0 ∧
      (frameSent n).data (4 * (i * 1280 + j) + 2) = i % 256 ∧
      (frameSent n).data (4 * (i * 1280 + j) + 3) = 255) ∧
    (∀ m, m < BUF_LEN → (frameSent n).data m = specByte n m) := by
  refine ⟨(demoAfter_fields n).2.2.2.2.2.1, (demoAfter_fields (n + 1)).2.2.2.2.2.1, ?_, ?_⟩
  · intro i j hi hj
    have e0 : writeIndex i j 0 = 4 * (i * 1280 + j) := by unfold writeIndex; omega
    have e1 : writeIndex i j 1 = 4 * (i * 1280 + j) + 1 := rfl
    have e2 : writeIndex i j 2 = 4 * (i * 1280 + j) + 2 := rfl
    have e3 : writeIndex i j 3 = 4 * (i * 1280 + j) + 3 := rfl
    exact ⟨by rw [← e0, frameSent_data_at n i j 0 hi hj (by omega)]; rfl,
      by rw [← e1, frameSent_data_at n i j 1 hi hj (by omega)]; rfl,
      by rw [← e2, frameSent_data_at n i j 2 hi hj (by omega)]; rfl,
      by rw [← e3, frameSent_data_at n i j 3 hi hj (by omega)]; rfl⟩
  · intro m hm
    have hb : BUF_LEN = 3686400 := by norm_num [BUF_LEN]
    have hi : m / 5120 < 720 := by omega
    have hj : m % 5120 / 4 < 1280 := by omega
    have he : writeIndex (m / 5120) (m % 5120 / 4) (m % 4) = m := by unfold writeIndex; omega
    have h := frameSent_data_at n (m / 5120) (m % 5120 / 4) (m % 4) hi hj (by omega)
    rw [he] at h
    rw [h]
    rfl

theorem demo_tick_deterministic_writes_w :
    (frameSent 2).data (4 * (1 * 1280 + 3) + 2) = 1 % 256 ∧
    (frameSent 2).data 7 = specByte 2 7 :=
  ⟨((demo_tick_deterministic_writes 2).2.2.1 1 3 (by norm_num) (by norm_num)).2.2.1,
   (demo_tick_deterministic_writes 2).2.2.2 7 (by norm_num [BUF_LEN])⟩

/-- C3: in both scripts, a non-zero exit of the first `execSync` aborts the
script with the failing command and the second command never runs; a zero
exit lets the second command run. -/
theorem scripts_abort_on_nonzero_exit (ec : String → Nat) :
    (ec prettierWriteCmd ≠ 0 →
      runScript ec formatScript = ([prettierWriteCmd], some prettierWriteCmd)) ∧
    (ec prettierWriteCmd = 0 → cargoFmtCmd ∈ (runScript ec formatScript).1) ∧
    (ec prettierCheckCmd ≠ 0 →
      runScript ec checkScript = ([prettierCheckCmd], some prettierCheckCmd)) ∧
    (ec prettierCheckCmd = 0 → eslintCmd ∈ (runScript ec checkScript).1) := by
  refine ⟨fun h => ?_, fun h => ?_, fun h => ?_, fun h => ?_⟩
  · simp [runScript, formatScript, h]
  · by_cases h2 : ec cargoFmtCmd = 0 <;> simp [runScript, formatScript, h, h2]
  · simp [runScript, checkScript, h]
  · by_cases h2 : ec eslintCmd = 0 <;> simp [runScript, checkScript, h, h2]

theorem scripts_abort_on_nonzero_exit_w :
    runScript (fun _ => 1) formatScript = ([prettierWriteCmd], some prettierWriteCmd) ∧
    cargoFmtCmd ∈ (runScript (fun _ => 0) formatScript).1 ∧
    runScript (fun _ => 1) checkScript = ([prettierCheckCmd], some prettierCheckCmd) ∧
    eslintCmd ∈ (runScript (fun _ => 0) checkScript).1 :=
  ⟨(scripts_abort_on_nonzero_exit (fun _ => 1)).1 (by decide),
   (scripts_abort_on_nonzero_exit (fun _ => 0)).2.1 rfl,
   (scripts_abort_on_nonzero_exit (fun _ => 1)).2.2.1 (by decide),
   (scripts_abort_on_nonzero_exit (fun _ => 0)).2.2.2 rfl⟩

/-- C4: the format script runs exactly two commands, in order: first the
formatter in write mode (`prettier --write` over the glob), then the native
toolchain formatter (`cargo fmt`); with zero exits both execute, in that
order, and nothing else. -/
theorem format_script_two_commands (ec : String → Nat) (h : ∀ c, ec c = 0) :
    runScript ec formatScript = ([prettierWriteCmd, cargoFmtCmd], none) ∧
    chStarts "prettier --write".toList prettierWriteCmd.toList = true ∧
    cargoFmtCmd = "cargo fmt" := by
  refine ⟨?_, by decide, rfl⟩
  simp [runScript, formatScript, h]

theorem format_script_two_commands_w :
    runScript (fun _ => 0) formatScript = ([prettierWriteCmd, cargoFmtCmd], none) ∧
    chStarts "prettier --write".toList prettierWriteCmd.toList = true ∧
    cargoFmtCmd = "cargo fmt" :=
  format_script_two_commands (fun _ => 0) (fun _ => rfl)

/-- C5: the check script runs exactly two commands, in order: the formatter
in check-only mode (`prettier --check`), then the linter
(`eslint . --ext ".ts,.js"`); neither command line contains a `--write` or
`--fix` flag. -/
theorem check_script_readonly_commands (ec : String → Nat) (h : ∀ c, ec c = 0) :
    runScript ec checkScript = ([prettierCheckCmd, eslintCmd], none) ∧
    chStarts "prettier --check".toList prettierCheckCmd.toList = true ∧
    chStarts "eslint ".toList eslintCmd.toList = true ∧
    strHas eslintCmd "--ext \".ts,.js\"" = true ∧
    strHas prettierCheckCmd "--write" = false ∧
    strHas prettierCheckCmd "--fix" = false ∧
    strHas eslintCmd "--write" = false ∧
    strHas eslintCmd "--fix" = false := by
  refine ⟨?_, by decide, by decide, by decide, by decide, by decide, by decide, by decide⟩
  simp [runScript, checkScript, h]

theorem check_script_readonly_commands_w :
    runScript (fun _ => 0) checkScript = ([prettierCheckCmd, eslintCmd], none) ∧
    chStarts "prettier --check".toList prettierCheckCmd.toList = true ∧
    chStarts "eslint ".toList eslintCmd.toList = true ∧
    strHas eslintCmd "--ext \".ts,.js\"" = true ∧
    strHas prettierCheckCmd "--write" = false ∧
    strHas prettierCheckCmd "--fix" = false ∧
    strHas eslintCmd "--write" = false ∧
    strHas eslintCmd "--fix" = false :=
  check_script_readonly_commands (fun _ => 0) (fun _ => rfl)

/-- C6: the demo's Camera interactions happen in a fixed order: exactly one
construction `Camera(1280, 720)` (first), exactly one `start()` (second),
and one `send` per tick, all strictly after `start`. -/
theorem demo_camera_interaction_order (n : Nat) :
    (demoEvents n).countP isConstruct = 1 ∧
    (demoEvents n).countP isStart = 1 ∧
    (demoEvents n).countP isSend = n ∧
    (demoEvents n)[0]? = some (CamEvent.construct 1280 720) ∧
    (demoEvents n)[1]? = some CamEvent.start ∧
    (∀ m e, (demoEvents n)[m]? = some e → isSend e = true → 2 ≤ m) := by
  refine ⟨?_, ?_, ?_, by simp [demoEvents], by simp [demoEvents], ?_⟩
  · unfold demoEvents
    rw [List.countP_cons, List.countP_cons, countP_map_false _ _ _ (fun t => rfl)]
    rfl
  · unfold demoEvents
    rw [List.countP_cons, List.countP_cons, countP_map_false _ _ _ (fun t => rfl)]
    rfl
  · unfold demoEvents
    rw [List.countP_cons, List.countP_cons, countP_map_true _ _ _ (fun t => rfl),
      List.length_range]
    rfl
  · intro m e hm hs
    rcases m with _ | _ | m
    · simp only [demoEvents, List.getElem?_cons_zero, Option.some.injEq] at hm
      rw [← hm] at hs
      simp [isSend] at hs
    · simp only [demoEvents, List.getElem?_cons_succ, List.getElem?_cons_zero,
        Option.some.injEq] at hm
      rw [← hm] at hs
      simp [isSend] at hs
    · omega

theorem demo_camera_interaction_order_w :
    2 ≤ 2 ∧ (demoEvents 1).countP isSend = 1 :=
  ⟨(demo_camera_interaction_order 1).2.2.2.2.2 2 (CamEvent.send (frameSent 0))
      (by simp [demoEvents, List.range_succ]) rfl,
   (demo_camera_interaction_order 1).2.2.1⟩

/-- C7: the demo registers a repeating interval timer whose nominal period
is exactly `1000 / 60` milliseconds, i.e. `FPS = 60` callbacks per second. -/
theorem demo_timer_sixty_fps :
    demoTimer.repeating = true ∧ FPS = 60 ∧ demoTimer.periodMs = 1000 / 60 ∧
    FPS * demoTimer.periodMs = 1000 := by
  refine ⟨rfl, rfl, rfl, ?_⟩
  norm_num [demoTimer, intervalMs, FPS]

/-- C8: no code path of the demo clears the interval: the top-level program
contains exactly one `setInterval` and no `clearInterval`, and in every
reachable state the timer remains scheduled. -/
theorem demo_interval_never_cleared :
    (∀ n, (demoAfter n).scheduled = true) ∧
    demoProgram.countP isClearIntervalCall = 0 ∧
    demoProgram.countP isSetIntervalCall = 1 :=
  ⟨fun n => (demoAfter_fields n).2.2.2.2.1, rfl, rfl⟩

/-- C9: the buffer is allocated once, before the timer starts; every tick
mutates that same object in place and passes exactly it (same object id,
same length) to `camera.send`; the callback changes nothing else: `camera`,
`FPS` and the scheduled flag stay as initialized. -/
theorem demo_single_buffer_in_place (n : Nat) :
    (demoAfter n).allocCount = 1 ∧
    (demoAfter n).bufId = demoInit.bufId ∧
    sentRef n = demoInit.bufId ∧
    (frameSent n).len = BUF_LEN ∧
    (demoAfter n).camera = demoInit.camera ∧
    (demoAfter n).fps = demoInit.fps ∧
    (demoAfter n).scheduled = demoInit.scheduled := by
  obtain ⟨h1, h2, h3, h4, h5, h6, h7⟩ := demoAfter_fields n
  have hs : sentRef n = (demoAfter n).bufId := rfl
  exact ⟨h4, h3, hs.trans h3, frameSent_len n, h1, h2, h5⟩

/-- C10: every write of the nested fill loop is in bounds
(`4 * (i * 1280 + j) + k < 1280 * 720 * 4`), the writes cover every buffer
index exactly once per tick, and no index at or beyond the buffer length is
ever touched. -/
theorem demo_writes_in_bounds_and_cover :
    (∀ i j k, i < 720 → j < 1280 → k < 4 → writeIndex i j k < BUF_LEN) ∧
    (∀ m, m < BUF_LEN → ∃ i j k, (i < 720 ∧ j < 1280 ∧ k < 4) ∧ writeIndex i j k = m ∧
      ∀ a c d, a < 720 → c < 1280 → d < 4 → writeIndex a c d = m →
        a = i ∧ c = j ∧ d = k) ∧
    (∀ b t m, BUF_LEN ≤ m → (tickFill b t).data m = b.data m) := by
  have hb : BUF_LEN = 3686400 := by norm_num [BUF_LEN]
  refine ⟨?_, ?_, fun b t m hm => tickFill_data_out b t m hm⟩
  · intro i j k hi hj hk
    unfold writeIndex
    omega
  · intro m hm
    refine ⟨m / 5120, m % 5120 / 4, m % 4, ⟨by omega, by omega, by omega⟩, ?_, ?_⟩
    · unfold writeIndex
      omega
    · intro a c d ha hc hd he
      unfold writeIndex at he
      omega

theorem demo_writes_in_bounds_and_cover_w :
    writeIndex 1 2 3 < BUF_LEN ∧
    (∃ i j k, (i < 720 ∧ j < 1280 ∧ k < 4) ∧ writeIndex i j k = 5123 ∧
      ∀ a c d, a < 720 → c < 1280 → d < 4 → writeIndex a c d = 5123 →
        a = i ∧ c = j ∧ d = k) ∧
    (tickFill initBuffer 9).data 3686400 = initBuffer.data 3686400 :=
  ⟨demo_writes_in_bounds_and_cover.1 1 2 3 (by norm_num) (by norm_num) (by norm_num),
   demo_writes_in_bounds_and_cover.2.1 5123 (by norm_num [BUF_LEN]),
   demo_writes_in_bounds_and_cover.2.2 initBuffer 9 3686400 (by norm_num [BUF_LEN])⟩

end NodeVcam
